import Mathlib

/-!
# Verification of the ssim-ts SSIM engines

Shallow embedding of `src/ssim.ts` (reference Gaussian-window engine),
`src/fast-ssim.ts` (integral-image box-window engine) and `src/types.ts`.

Conventions of the embedding:
* JavaScript double arithmetic is modelled by exact arithmetic in `ℚ`
  (division by zero yields `0` in the model where JavaScript produces
  `NaN`/`Infinity`; this is noted at each theorem it affects).
* The mutable `Float32Array` result buffer is modelled by the list of the
  values the loops write, padded with the zeros the allocation leaves
  untouched; `new Float32Array(n)` with negative `n` throws a `RangeError`
  in JavaScript, modelled by `Except.error rangeError`.
* The Gaussian kernel built by `createGaussianKernel` uses `Math.exp`, so it
  is modelled over `ℝ`; the engines receive the kernel as an explicit
  argument (mirroring the `kernel` parameter threaded through
  `applyGaussianWindow`/`calculateLocalSSIM` in the source), which lets the
  `ℚ`-valued engine theorems quantify over the kernel entries.
* The mutable `Map`-based kernel cache is modelled by explicit state passing
  over an association list.
-/

namespace SsimTs

/-- `ImageData` from types.ts: width, height and a row-major sample buffer
(sample lookup is modelled as a total function on flat indices). -/
structure ImageData where
  width : Nat
  height : Nat
  data : Nat → ℚ

/-- `SSIMOptions` from types.ts: all fields optional, falling back
independently to the engine defaults. -/
structure SSIMOptions where
  k1 : Option ℚ
  k2 : Option ℚ
  windowSize : Option Nat
  L : Option ℚ

/-- `SSIMResult` from types.ts. -/
structure SSIMResult where
  mssim : ℚ
  ssim_map : List ℚ
deriving DecidableEq

/-- The message of the dimension-mismatch `Error` thrown by both engines. -/
def dimensionError : String := "Images must have the same dimensions"

/-- The `RangeError` thrown by `new Float32Array(n)` when the requested
length `n` is negative. -/
def rangeError : String := "RangeError: invalid typed array length"

/-- `applyGaussianWindow` from ssim.ts: kernel-weighted mean of `data` over
the window centered at `(x, y)`, clipped to the image bounds, divided by the
sum of the weights actually used.  Natural-number truncated subtraction
`x - halfSize` coincides with the source's `Math.max(0, x - halfSize)`. -/
def applyGaussianWindow (data : Nat → ℚ) (width height x y windowSize : Nat)
    (kernel : Nat → ℚ) : ℚ :=
  let halfSize := windowSize / 2
  let xStart := x - halfSize
  let xEnd := min width (x + halfSize + 1)
  let yStart := y - halfSize
  let yEnd := min height (y + halfSize + 1)
  let sum := ∑ py ∈ Finset.Ico yStart yEnd, ∑ px ∈ Finset.Ico xStart xEnd,
    data (py * width + px) * kernel ((py + halfSize - y) * windowSize + (px + halfSize - x))
  let kernelSum := ∑ py ∈ Finset.Ico yStart yEnd, ∑ px ∈ Finset.Ico xStart xEnd,
    kernel ((py + halfSize - y) * windowSize + (px + halfSize - x))
  sum / kernelSum

/-- One accumulator of the central-moment loop of `calculateLocalSSIM`
(ssim.ts lines 97–117), already divided by `weightSum`:
`Σ weight·(img1[idx]-mu1)·(img2[idx]-mu2) / Σ weight` over the clipped
window.  `sigma1Sq`, `sigma2Sq` and `sigma12` are the three instances. -/
def centralMoment (img1 img2 : Nat → ℚ) (mu1 mu2 : ℚ)
    (width height x y windowSize : Nat) (kernel : Nat → ℚ) : ℚ :=
  let halfSize := windowSize / 2
  let xStart := x - halfSize
  let xEnd := min width (x + halfSize + 1)
  let yStart := y - halfSize
  let yEnd := min height (y + halfSize + 1)
  let acc := ∑ py ∈ Finset.Ico yStart yEnd, ∑ px ∈ Finset.Ico xStart xEnd,
    kernel ((py + halfSize - y) * windowSize + (px + halfSize - x)) *
      (img1 (py * width + px) - mu1) * (img2 (py * width + px) - mu2)
  let weightSum := ∑ py ∈ Finset.Ico yStart yEnd, ∑ px ∈ Finset.Ico xStart xEnd,
    kernel ((py + halfSize - y) * windowSize + (px + halfSize - x))
  acc / weightSum

/-- `calculateLocalSSIM` from ssim.ts: two-pass windowed statistics (means
first, then central moments) feeding the SSIM formula. -/
def calculateLocalSSIM (img1 img2 : Nat → ℚ) (width height x y windowSize : Nat)
    (kernel : Nat → ℚ) (C1 C2 : ℚ) : ℚ :=
  let mu1 := applyGaussianWindow img1 width height x y windowSize kernel
  let mu2 := applyGaussianWindow img2 width height x y windowSize kernel
  let sigma1Sq := centralMoment img1 img1 mu1 mu1 width height x y windowSize kernel
  let sigma2Sq := centralMoment img2 img2 mu2 mu2 width height x y windowSize kernel
  let sigma12 := centralMoment img1 img2 mu1 mu2 width height x y windowSize kernel
  ((2 * (mu1 * mu2) + C1) * (2 * sigma12 + C2)) /
    ((mu1 * mu1 + mu2 * mu2 + C1) * (sigma1Sq + sigma2Sq + C2))

/-- `calculateSSIM` from ssim.ts.  The `kernel` argument stands for the
`Float32Array` obtained from `getOrCreateKernel(windowSize)` (always the
Gaussian kernel at the fixed default sigma 1.5; modelled separately over `ℝ`
below).  The result map is the `Float32Array` of length
`validWidth*validHeight`: the row-major values written by the double loop,
followed by the zero-initialised entries the loop never reaches; a negative
requested length throws a `RangeError`. -/
def calculateSSIM (kernel : Nat → ℚ) (img1 img2 : ImageData)
    (options : SSIMOptions) : Except String SSIMResult :=
  if img1.width ≠ img2.width ∨ img1.height ≠ img2.height then
    Except.error dimensionError
  else
    let k1 := options.k1.getD (1 / 100)
    let k2 := options.k2.getD (3 / 100)
    let windowSize := options.windowSize.getD 11
    let L := options.L.getD 255
    let C1 := (k1 * L) ^ 2
    let C2 := (k2 * L) ^ 2
    let width := img1.width
    let height := img1.height
    let halfSize := windowSize / 2
    let validWidth : Int := (width : Int) - 2 * halfSize
    let validHeight : Int := (height : Int) - 2 * halfSize
    if validWidth * validHeight < 0 then Except.error rangeError
    else
      let computed := (List.range validHeight.toNat).flatMap fun ry =>
        (List.range validWidth.toNat).map fun rx =>
          calculateLocalSSIM img1.data img2.data width height
            (rx + halfSize) (ry + halfSize) windowSize kernel C1 C2
      let ssimMap := computed ++
        List.replicate ((validWidth * validHeight).toNat -
          validWidth.toNat * validHeight.toNat) 0
      Except.ok ⟨ssimMap.sum / (ssimMap.length : ℚ), ssimMap⟩

/-- `ssim` from ssim.ts: the scalar entry point. -/
def ssim (kernel : Nat → ℚ) (img1 img2 : ImageData) (options : SSIMOptions) :
    Except String ℚ :=
  (calculateSSIM kernel img1 img2 options).map SSIMResult.mssim

namespace IntegralImage

/-- The summed-area table built by `IntegralImage.buildBoth` (fast-ssim.ts):
`integral data width y x` is entry `[y][x]` of the `(width+1)×(height+1)`
table (stride `width+1`), zero on the borders, and otherwise the running row
sum `Σ_{i<x} data[(y-1)*width+i]` plus the entry above — exactly the
`integral[idx] = rowSum + integral[prevYOffset + x]` recurrence. -/
def integral (data : Nat → ℚ) (width : Nat) : Nat → Nat → ℚ
  | 0, _ => 0
  | y + 1, x => (∑ i ∈ Finset.range x, data (y * width + i)) + integral data width y x

/-- `IntegralImage.getMean` (fast-ssim.ts): four-corner inclusion–exclusion
divided by the rectangle area `(x2-x1+1)*(y2-y1+1)`.  Coordinates are
integers because the engine can pass `x2 = -1` for degenerate windows; all
table lookups clamp through `Int.toNat`, matching the non-negative indices
the source actually uses. -/
def getMean (data : Nat → ℚ) (width : Nat) (x1 y1 x2 y2 : Int) : ℚ :=
  let a := integral data width y1.toNat x1.toNat
  let b := integral data width y1.toNat (x2 + 1).toNat
  let c := integral data width (y2 + 1).toNat x1.toNat
  let d := integral data width (y2 + 1).toNat (x2 + 1).toNat
  let area : ℚ := (((x2 - x1 + 1) * (y2 - y1 + 1) : Int) : ℚ)
  (d - b - c + a) / area

/-- `IntegralImage.getMeanSq` (fast-ssim.ts): same query on the table of
squared samples that `buildBoth` fills from `valueSq = value * value`. -/
def getMeanSq (data : Nat → ℚ) (width : Nat) (x1 y1 x2 y2 : Int) : ℚ :=
  getMean (fun i => data i * data i) width x1 y1 x2 y2

end IntegralImage

namespace ProductIntegralImage

/-- `ProductIntegralImage.getMean` (fast-ssim.ts): the rectangle mean query
on the table that `buildProduct` fills from `data1[idx] * data2[idx]`. -/
def getMean (data1 data2 : Nat → ℚ) (width : Nat) (x1 y1 x2 y2 : Int) : ℚ :=
  IntegralImage.getMean (fun i => data1 i * data2 i) width x1 y1 x2 y2

end ProductIntegralImage

/-- The inner-loop body of `calculateSSIMFast` (fast-ssim.ts lines 177–209),
factored out with the scanned pixel `(x, y)` as an argument: clamped
rectangle bounds (`x1 = max(0, x-halfSize)`, `x2 = min(width-1, x+halfSize-1)`
and likewise for `y`, asymmetric by one on the upper bound), integral-image
mean queries, derived variances/covariance, and the SSIM formula. -/
def fastLocalSSIM (data1 data2 : Nat → ℚ) (width height windowSize : Nat)
    (C1 C2 : ℚ) (x y : Int) : ℚ :=
  let halfSize := windowSize / 2
  let x1 := max 0 (x - halfSize)
  let x2 := min ((width : Int) - 1) (x + halfSize - 1)
  let y1 := max 0 (y - halfSize)
  let y2 := min ((height : Int) - 1) (y + halfSize - 1)
  let mu1 := IntegralImage.getMean data1 width x1 y1 x2 y2
  let mu2 := IntegralImage.getMean data2 width x1 y1 x2 y2
  let meanSq1 := IntegralImage.getMeanSq data1 width x1 y1 x2 y2
  let meanSq2 := IntegralImage.getMeanSq data2 width x1 y1 x2 y2
  let meanProd := ProductIntegralImage.getMean data1 data2 width x1 y1 x2 y2
  let sigma1Sq := meanSq1 - mu1 * mu1
  let sigma2Sq := meanSq2 - mu2 * mu2
  let sigma12 := meanProd - mu1 * mu2
  ((2 * (mu1 * mu2) + C1) * (2 * sigma12 + C2)) /
    ((mu1 * mu1 + mu2 * mu2 + C1) * (sigma1Sq + sigma2Sq + C2))

/-- `calculateSSIMFast` from fast-ssim.ts: box-window SSIM over the three
integral images, scanning `[halfSize, dim-halfSize)` with per-pixel clamped
rectangle bounds.  The result buffer is modelled exactly as in
`calculateSSIM`. -/
def calculateSSIMFast (img1 img2 : ImageData) (options : SSIMOptions) :
    Except String SSIMResult :=
  if img1.width ≠ img2.width ∨ img1.height ≠ img2.height then
    Except.error dimensionError
  else
    let k1 := options.k1.getD (1 / 100)
    let k2 := options.k2.getD (3 / 100)
    let windowSize := options.windowSize.getD 8
    let L := options.L.getD 255
    let C1 := (k1 * L) * (k1 * L)
    let C2 := (k2 * L) * (k2 * L)
    let halfSize := windowSize / 2
    let width := img1.width
    let height := img1.height
    let data1 := img1.data
    let data2 := img2.data
    let validWidth : Int := (width : Int) - 2 * halfSize
    let validHeight : Int := (height : Int) - 2 * halfSize
    if validWidth * validHeight < 0 then Except.error rangeError
    else
      let computed := (List.range validHeight.toNat).flatMap fun (ry : Nat) =>
        (List.range validWidth.toNat).map fun (rx : Nat) =>
          fastLocalSSIM data1 data2 width height windowSize C1 C2
            ((rx : Int) + halfSize) ((ry : Int) + halfSize)
      let ssimMap := computed ++
        List.replicate ((validWidth * validHeight).toNat -
          validWidth.toNat * validHeight.toNat) 0
      Except.ok ⟨ssimMap.sum / (ssimMap.length : ℚ), ssimMap⟩

/-- `ssimFast` from fast-ssim.ts: the scalar entry point. -/
def ssimFast (img1 img2 : ImageData) (options : SSIMOptions) : Except String ℚ :=
  (calculateSSIMFast img1 img2 options).map SSIMResult.mssim

/-- The unnormalised Gaussian weight written at flat index `idx` by
`createGaussianKernel` (ssim.ts): `exp(-(dx*dx+dy*dy)/(2*sigma*sigma))` with
`dx = x - center`, `dy = y - center`, `center = floor(windowSize/2)`.
Sigma values are the rationals JavaScript passes (default 1.5). -/
noncomputable def gaussianWeight (windowSize : Nat) (sigma : ℚ) (idx : Nat) : ℝ :=
  let center := windowSize / 2
  let dx : ℝ := ((idx % windowSize : Nat) : ℝ) - (center : ℝ)
  let dy : ℝ := ((idx / windowSize : Nat) : ℝ) - (center : ℝ)
  Real.exp (-(dx * dx + dy * dy) / (2 * (sigma : ℝ) * (sigma : ℝ)))

/-- The grid sum accumulated by `createGaussianKernel` before normalizing. -/
noncomputable def gaussianSum (windowSize : Nat) (sigma : ℚ) : ℝ :=
  ∑ idx ∈ Finset.range (windowSize * windowSize), gaussianWeight windowSize sigma idx

/-- `createGaussianKernel` from ssim.ts: the normalized kernel as a flat
array of length `windowSize*windowSize` (reads past the end of the
`Float32Array` are modelled as 0). -/
noncomputable def createGaussianKernel (windowSize : Nat) (sigma : ℚ) (idx : Nat) : ℝ :=
  if idx < windowSize * windowSize then
    gaussianWeight windowSize sigma idx / gaussianSum windowSize sigma
  else 0

/-- The kernel cache `Map` of ssim.ts, modelled as an association list from
the `(windowSize, sigma)` key (the source keys by the string
`windowSize + "_" + sigma`, injective on these pairs) to the cached kernel. -/
def KernelCache : Type := List ((Nat × ℚ) × (Nat → ℝ))

/-- `kernelCache.get(key)` on the model cache. -/
def cacheLookup : KernelCache → Nat × ℚ → Option (Nat → ℝ)
  | [], _ => none
  | (k, v) :: rest, key => if k = key then some v else cacheLookup rest key

/-- `getOrCreateKernel` from ssim.ts with the cache state made explicit:
returns the cached kernel if the key is present, otherwise constructs the
Gaussian kernel, stores it and returns it. -/
noncomputable def getOrCreateKernel (cache : KernelCache) (windowSize : Nat)
    (sigma : ℚ) : (Nat → ℝ) × KernelCache :=
  match cacheLookup cache (windowSize, sigma) with
  | some kernel => (kernel, cache)
  | none =>
    let kernel := createGaussianKernel windowSize sigma
    (kernel, ((windowSize, sigma), kernel) :: cache)

/-- The signed valid-region extent `dim - 2 * floor(windowSize/2)` that both
engines compute (`validWidth`/`validHeight`), an ordinary JavaScript number
that can be negative. -/
def validDim (dim windowSize : Nat) : Int :=
  (dim : Int) - 2 * ((windowSize / 2 : Nat) : Int)

/-- The result buffer of `calculateSSIM` on equal-dimension inputs (the
row-major values written by the scan loops, padded by the zero entries the
allocation leaves untouched).  Pure abbreviation of the buffer subterm of
`calculateSSIM`, used to state the run lemmas. -/
def refMap (kernel : Nat → ℚ) (w h : Nat) (d1 d2 : Nat → ℚ) (o : SSIMOptions) :
    List ℚ :=
  let windowSize := o.windowSize.getD 11
  let halfSize := windowSize / 2
  let computed := (List.range (validDim h windowSize).toNat).flatMap fun ry =>
    (List.range (validDim w windowSize).toNat).map fun rx =>
      calculateLocalSSIM d1 d2 w h (rx + halfSize) (ry + halfSize) windowSize
        kernel ((o.k1.getD (1 / 100) * o.L.getD 255) ^ 2)
        ((o.k2.getD (3 / 100) * o.L.getD 255) ^ 2)
  computed ++ List.replicate ((validDim w windowSize * validDim h windowSize).toNat -
    (validDim w windowSize).toNat * (validDim h windowSize).toNat) 0

/-- The result buffer of `calculateSSIMFast` on equal-dimension inputs; pure
abbreviation of the buffer subterm of `calculateSSIMFast`. -/
def fastMap (w h : Nat) (d1 d2 : Nat → ℚ) (o : SSIMOptions) : List ℚ :=
  let windowSize := o.windowSize.getD 8
  let halfSize := windowSize / 2
  let computed := (List.range (validDim h windowSize).toNat).flatMap fun (ry : Nat) =>
    (List.range (validDim w windowSize).toNat).map fun (rx : Nat) =>
      fastLocalSSIM d1 d2 w h windowSize
        ((o.k1.getD (1 / 100) * o.L.getD 255) * (o.k1.getD (1 / 100) * o.L.getD 255))
        ((o.k2.getD (3 / 100) * o.L.getD 255) * (o.k2.getD (3 / 100) * o.L.getD 255))
        ((rx : Int) + halfSize) ((ry : Int) + halfSize)
  computed ++ List.replicate ((validDim w windowSize * validDim h windowSize).toNat -
    (validDim w windowSize).toNat * (validDim h windowSize).toNat) 0

/-! ### Summed-area-table lemmas -/

/-- Closed form of the table recurrence: entry `[y][x]` is the sum of the
source over rows `[0..y)` and columns `[0..x)`. -/
theorem integral_eq_sum (data : Nat → ℚ) (width : Nat) :
    ∀ y x, IntegralImage.integral data width y x =
      ∑ j ∈ Finset.range y, ∑ i ∈ Finset.range x, data (j * width + i) := by
  intro y
  induction y with
  | zero => intro x; simp [IntegralImage.integral]
  | succ y ih =>
    intro x
    rw [IntegralImage.integral, ih, Finset.sum_range_succ]
    exact add_comm _ _

/-- Four-corner inclusion–exclusion extracts the rectangle sum. -/
theorem rectSum_eq (data : Nat → ℚ) (width : Nat) (x1 y1 x2 y2 : Nat)
    (hx : x1 ≤ x2 + 1) (hy : y1 ≤ y2 + 1) :
    IntegralImage.integral data width (y2 + 1) (x2 + 1) -
        IntegralImage.integral data width y1 (x2 + 1) -
        IntegralImage.integral data width (y2 + 1) x1 +
        IntegralImage.integral data width y1 x1 =
      ∑ j ∈ Finset.Ico y1 (y2 + 1), ∑ i ∈ Finset.Ico x1 (x2 + 1),
        data (j * width + i) := by
  have hrow : ∀ j, ∑ i ∈ Finset.Ico x1 (x2 + 1), data (j * width + i) =
      (∑ i ∈ Finset.range (x2 + 1), data (j * width + i)) -
        ∑ i ∈ Finset.range x1, data (j * width + i) :=
    fun j => Finset.sum_Ico_eq_sub _ hx
  rw [Finset.sum_congr rfl fun j _ => hrow j, Finset.sum_sub_distrib,
    Finset.sum_Ico_eq_sub _ hy, Finset.sum_Ico_eq_sub _ hy,
    integral_eq_sum, integral_eq_sum, integral_eq_sum, integral_eq_sum]
  ring

/-- `getMean` on an in-bounds rectangle given with natural coordinates is
the rectangle sum divided by the rectangle area. -/
theorem getMean_eq (data : Nat → ℚ) (width : Nat) (x1 y1 x2 y2 : Nat)
    (hx : x1 ≤ x2) (hy : y1 ≤ y2) :
    IntegralImage.getMean data width (x1 : Int) (y1 : Int) (x2 : Int) (y2 : Int) =
      (∑ j ∈ Finset.Icc y1 y2, ∑ i ∈ Finset.Icc x1 x2, data (j * width + i)) /
        (((x2 - x1 + 1) * (y2 - y1 + 1) : Nat) : ℚ) := by
  have h1 : ((x2 : Int) + 1).toNat = x2 + 1 := by omega
  have h2 : ((y2 : Int) + 1).toNat = y2 + 1 := by omega
  have e1 : ((x2 : Int) - x1 + 1) = ((x2 - x1 + 1 : Nat) : Int) := by omega
  have e2 : ((y2 : Int) - y1 + 1) = ((y2 - y1 + 1 : Nat) : Int) := by omega
  simp only [IntegralImage.getMean, h1, h2, Int.toNat_natCast, e1, e2,
    ← Nat.cast_mul, Int.cast_natCast]
  rw [rectSum_eq data width x1 y1 x2 y2 (by omega) (by omega),
    Nat.Ico_succ_right]
  have : ∀ j, ∑ i ∈ Finset.Ico x1 (x2 + 1), data (j * width + i) =
      ∑ i ∈ Finset.Icc x1 x2, data (j * width + i) := by
    intro j; rw [Nat.Ico_succ_right]
  rw [Finset.sum_congr rfl fun j _ => this j]

/-! ### Row-major result-buffer lemmas -/

/-- Length of the row-major value list produced by the scan loops. -/
theorem grid_length {α : Type} (g : Nat → Nat → α) (m n : Nat) :
    ((List.range n).flatMap fun j => (List.range m).map (g j)).length = n * m := by
  induction n with
  | zero => simp
  | succ n ih =>
    rw [List.range_succ, List.flatMap_append, List.length_append, ih]
    simp [Nat.succ_mul]

/-- Entry `(ry, rx)` of the row-major scan list sits at flat index
`ry * m + rx`. -/
theorem grid_getElem {α : Type} (m : Nat) :
    ∀ (ry n rx : Nat) (g : Nat → Nat → α), ry < n → rx < m →
      ((List.range n).flatMap fun j => (List.range m).map (g j))[ry * m + rx]? =
        some (g ry rx) := by
  intro ry
  induction ry with
  | zero =>
    intro n rx g hy hx
    obtain ⟨n', rfl⟩ : ∃ n', n = n' + 1 := ⟨n - 1, by omega⟩
    rw [List.range_succ_eq_map, List.flatMap_cons, Nat.zero_mul, Nat.zero_add,
      List.getElem?_append_left (by simpa using hx)]
    simp [List.getElem?_range hx]
  | succ ry ih =>
    intro n rx g hy hx
    obtain ⟨n', rfl⟩ : ∃ n', n = n' + 1 := ⟨n - 1, by omega⟩
    rw [List.range_succ_eq_map, List.flatMap_cons, List.flatMap_map,
      List.getElem?_append_right (by simp [Nat.succ_mul]; omega)]
    have hidx : (ry + 1) * m + rx - (List.map (g 0) (List.range m)).length =
        ry * m + rx := by
      simp [Nat.succ_mul]; omega
    rw [hidx]
    have := ih n' rx (fun j => g (j + 1)) (by omega) hx
    simpa [Nat.succ_eq_add_one] using this

/-! ### Integer arithmetic helpers for the buffer length -/

theorem int_toNat_mul (a b : Int) (ha : 0 ≤ a) (hb : 0 ≤ b) :
    (a * b).toNat = a.toNat * b.toNat := by
  have hm : a = (a.toNat : Int) := (Int.toNat_of_nonneg ha).symm
  have hn : b = (b.toNat : Int) := (Int.toNat_of_nonneg hb).symm
  rw [hm, hn, ← Nat.cast_mul, Int.toNat_natCast, Int.toNat_natCast, Int.toNat_natCast]

/-- The written prefix plus the untouched zero suffix always fill the
allocated buffer exactly. -/
theorem toNat_mul_total (a b : Int) :
    a.toNat * b.toNat + ((a * b).toNat - a.toNat * b.toNat) = (a * b).toNat := by
  rcases le_or_lt 0 a with ha | ha
  · rcases le_or_lt 0 b with hb | hb
    · rw [int_toNat_mul a b ha hb]; omega
    · have : b.toNat = 0 := Int.toNat_of_nonpos (le_of_lt hb)
      simp [this]
  · have : a.toNat = 0 := Int.toNat_of_nonpos (le_of_lt ha)
    simp [this]

/-! ### Run lemmas: how each engine executes on equal-dimension images -/

theorem calculateSSIM_err (kernel : Nat → ℚ) (w h : Nat) (d1 d2 : Nat → ℚ)
    (o : SSIMOptions)
    (hneg : validDim w (o.windowSize.getD 11) * validDim h (o.windowSize.getD 11) < 0) :
    calculateSSIM kernel ⟨w, h, d1⟩ ⟨w, h, d2⟩ o = Except.error rangeError := by
  unfold validDim at hneg
  unfold calculateSSIM
  rw [if_neg (by simp)]
  dsimp only
  rw [if_pos hneg]

theorem calculateSSIMFast_err (w h : Nat) (d1 d2 : Nat → ℚ) (o : SSIMOptions)
    (hneg : validDim w (o.windowSize.getD 8) * validDim h (o.windowSize.getD 8) < 0) :
    calculateSSIMFast ⟨w, h, d1⟩ ⟨w, h, d2⟩ o = Except.error rangeError := by
  unfold validDim at hneg
  unfold calculateSSIMFast
  rw [if_neg (by simp)]
  dsimp only
  rw [if_pos hneg]

theorem calculateSSIM_ok (kernel : Nat → ℚ) (w h : Nat) (d1 d2 : Nat → ℚ)
    (o : SSIMOptions)
    (hnn : 0 ≤ validDim w (o.windowSize.getD 11) * validDim h (o.windowSize.getD 11)) :
    calculateSSIM kernel ⟨w, h, d1⟩ ⟨w, h, d2⟩ o =
      Except.ok ⟨(refMap kernel w h d1 d2 o).sum / ((refMap kernel w h d1 d2 o).length : ℚ),
        refMap kernel w h d1 d2 o⟩ := by
  unfold validDim at hnn
  unfold calculateSSIM
  rw [if_neg (by simp)]
  dsimp only
  rw [if_neg (not_lt.mpr hnn)]
  unfold refMap validDim
  dsimp only

theorem calculateSSIMFast_ok (w h : Nat) (d1 d2 : Nat → ℚ) (o : SSIMOptions)
    (hnn : 0 ≤ validDim w (o.windowSize.getD 8) * validDim h (o.windowSize.getD 8)) :
    calculateSSIMFast ⟨w, h, d1⟩ ⟨w, h, d2⟩ o =
      Except.ok ⟨(fastMap w h d1 d2 o).sum / ((fastMap w h d1 d2 o).length : ℚ),
        fastMap w h d1 d2 o⟩ := by
  unfold validDim at hnn
  unfold calculateSSIMFast
  rw [if_neg (by simp)]
  dsimp only
  rw [if_neg (not_lt.mpr hnn)]
  unfold fastMap validDim
  dsimp only

/-- The buffer length is always the allocated `(validWidth*validHeight).toNat`. -/
theorem refMap_length (kernel : Nat → ℚ) (w h : Nat) (d1 d2 : Nat → ℚ)
    (o : SSIMOptions) :
    (refMap kernel w h d1 d2 o).length =
      (validDim w (o.windowSize.getD 11) * validDim h (o.windowSize.getD 11)).toNat := by
  unfold refMap
  dsimp only
  rw [List.length_append, grid_length, List.length_replicate, Nat.mul_comm]
  exact toNat_mul_total _ _

theorem fastMap_length (w h : Nat) (d1 d2 : Nat → ℚ) (o : SSIMOptions) :
    (fastMap w h d1 d2 o).length =
      (validDim w (o.windowSize.getD 8) * validDim h (o.windowSize.getD 8)).toNat := by
  unfold fastMap
  dsimp only
  rw [List.length_append, grid_length, List.length_replicate, Nat.mul_comm]
  exact toNat_mul_total _ _

theorem grid_empty {α β : Type} (l : List α) :
    (l.flatMap fun _ => ([] : List β)) = [] := by
  induction l <;> simp_all

/-! ## Claim C2: dimension mismatch -/

/-- Claim C2: for every pair of images whose widths differ or whose heights
differ, both `calculateSSIM` and `calculateSSIMFast` return the
dimension-mismatch error, for every kernel, every option record and all
sample buffers (the quantification over `d1`, `d2` shows the error is
produced without consulting the sample buffers, and the `Except.error`
result carries no partial result). -/
theorem c2_dimension_mismatch (w1 h1 w2 h2 : Nat) (d1 d2 : Nat → ℚ)
    (kernel : Nat → ℚ) (o : SSIMOptions) (hne : w1 ≠ w2 ∨ h1 ≠ h2) :
    calculateSSIM kernel ⟨w1, h1, d1⟩ ⟨w2, h2, d2⟩ o = Except.error dimensionError ∧
      calculateSSIMFast ⟨w1, h1, d1⟩ ⟨w2, h2, d2⟩ o = Except.error dimensionError := by
  constructor
  · unfold calculateSSIM
    rw [if_pos (by simpa using hne)]
  · unfold calculateSSIMFast
    rw [if_pos (by simpa using hne)]

/-- Witness for C2 at a concrete mismatched pair (64×64 vs 32×32). -/
theorem c2_dimension_mismatch_witness :
    calculateSSIM (fun _ => 1) ⟨64, 64, fun _ => 128⟩ ⟨32, 32, fun _ => 128⟩
        ⟨none, none, none, none⟩ = Except.error dimensionError ∧
      calculateSSIMFast ⟨64, 64, fun _ => 128⟩ ⟨32, 32, fun _ => 128⟩
        ⟨none, none, none, none⟩ = Except.error dimensionError :=
  c2_dimension_mismatch 64 64 32 32 (fun _ => 128) (fun _ => 128) (fun _ => 1)
    ⟨none, none, none, none⟩ (Or.inl (by decide))

/-! ## Claim C6: error taxonomy on equal dimensions -/

/-- Claim C6 (amended): on equal-dimension images the engines never raise the
dimension-mismatch error, and raise no error at all when the allocated length
`validWidth*validHeight` is non-negative (numerically degenerate options just
flow through the arithmetic); but when exactly one of `validWidth`,
`validHeight` is negative, the negative allocation length makes
`new Float32Array` throw a `RangeError`. -/
theorem c6_error_taxonomy (kernel : Nat → ℚ) (w h : Nat) (d1 d2 : Nat → ℚ)
    (o : SSIMOptions) :
    ((∃ r, calculateSSIM kernel ⟨w, h, d1⟩ ⟨w, h, d2⟩ o = Except.ok r) ↔
        0 ≤ validDim w (o.windowSize.getD 11) * validDim h (o.windowSize.getD 11)) ∧
      (calculateSSIM kernel ⟨w, h, d1⟩ ⟨w, h, d2⟩ o = Except.error rangeError ↔
        validDim w (o.windowSize.getD 11) * validDim h (o.windowSize.getD 11) < 0) ∧
      calculateSSIM kernel ⟨w, h, d1⟩ ⟨w, h, d2⟩ o ≠ Except.error dimensionError ∧
      ((∃ r, calculateSSIMFast ⟨w, h, d1⟩ ⟨w, h, d2⟩ o = Except.ok r) ↔
        0 ≤ validDim w (o.windowSize.getD 8) * validDim h (o.windowSize.getD 8)) ∧
      (calculateSSIMFast ⟨w, h, d1⟩ ⟨w, h, d2⟩ o = Except.error rangeError ↔
        validDim w (o.windowSize.getD 8) * validDim h (o.windowSize.getD 8) < 0) ∧
      calculateSSIMFast ⟨w, h, d1⟩ ⟨w, h, d2⟩ o ≠ Except.error dimensionError := by
  refine ⟨⟨?_, ?_⟩, ⟨?_, ?_⟩, ?_, ⟨?_, ?_⟩, ⟨?_, ?_⟩, ?_⟩
  · rintro ⟨r, hr⟩
    by_contra hlt
    rw [calculateSSIM_err kernel w h d1 d2 o (not_le.mp hlt)] at hr
    cases hr
  · intro hnn
    exact ⟨_, calculateSSIM_ok kernel w h d1 d2 o hnn⟩
  · intro hr
    by_contra hge
    rw [calculateSSIM_ok kernel w h d1 d2 o (not_lt.mp hge)] at hr
    cases hr
  · exact calculateSSIM_err kernel w h d1 d2 o
  · intro hr
    rcases lt_or_le (validDim w (o.windowSize.getD 11) * validDim h (o.windowSize.getD 11)) 0
      with hlt | hge
    · rw [calculateSSIM_err kernel w h d1 d2 o hlt] at hr
      exact absurd (Except.error.inj hr) (by decide)
    · rw [calculateSSIM_ok kernel w h d1 d2 o hge] at hr
      cases hr
  · rintro ⟨r, hr⟩
    by_contra hlt
    rw [calculateSSIMFast_err w h d1 d2 o (not_le.mp hlt)] at hr
    cases hr
  · intro hnn
    exact ⟨_, calculateSSIMFast_ok w h d1 d2 o hnn⟩
  · intro hr
    by_contra hge
    rw [calculateSSIMFast_ok w h d1 d2 o (not_lt.mp hge)] at hr
    cases hr
  · exact calculateSSIMFast_err w h d1 d2 o
  · intro hr
    rcases lt_or_le (validDim w (o.windowSize.getD 8) * validDim h (o.windowSize.getD 8)) 0
      with hlt | hge
    · rw [calculateSSIMFast_err w h d1 d2 o hlt] at hr
      exact absurd (Except.error.inj hr) (by decide)
    · rw [calculateSSIMFast_ok w h d1 d2 o hge] at hr
      cases hr

/-- Counterexample for C6 as frozen: on the equal-dimension pair of 3×20
images with windowSize 11, both engines throw a `RangeError` (the allocation
length `(3-10)*(20-10) = -70` is negative), so DimensionMismatch is not the
only error condition. -/
theorem c6_counterexample :
    calculateSSIM (fun _ => 1) ⟨3, 20, fun _ => 0⟩ ⟨3, 20, fun _ => 0⟩
        ⟨none, none, some 11, none⟩ = Except.error rangeError ∧
      calculateSSIMFast ⟨3, 20, fun _ => 0⟩ ⟨3, 20, fun _ => 0⟩
        ⟨none, none, some 11, none⟩ = Except.error rangeError ∧
      rangeError ≠ dimensionError :=
  ⟨calculateSSIM_err (fun _ => 1) 3 20 (fun _ => 0) (fun _ => 0)
      ⟨none, none, some 11, none⟩ (by decide),
    calculateSSIMFast_err 3 20 (fun _ => 0) (fun _ => 0)
      ⟨none, none, some 11, none⟩ (by decide),
    by decide⟩

/-! ## Claim C4: ssim_map length -/

/-- Claim C4 (amended): whenever the allocated length
`validWidth*validHeight` is non-negative, both engines return a map of
exactly that length; in particular for `windowSize` smaller than both
dimensions it equals `(width - 2⌊windowSize/2⌋)*(height - 2⌊windowSize/2⌋)`.
(The frozen `max(0,·)*max(0,·)` formula is wrong when both factors are
negative, and when exactly one factor is negative the engines throw instead
of returning a map — see the counterexample and C6.) -/
theorem c4_map_length (kernel : Nat → ℚ) (w h ws : Nat) (d1 d2 : Nat → ℚ)
    (k1 k2 L : Option ℚ) (hnn : 0 ≤ validDim w ws * validDim h ws) :
    (∃ r, calculateSSIM kernel ⟨w, h, d1⟩ ⟨w, h, d2⟩ ⟨k1, k2, some ws, L⟩ =
        Except.ok r ∧ r.ssim_map.length = (validDim w ws * validDim h ws).toNat) ∧
      (∃ r, calculateSSIMFast ⟨w, h, d1⟩ ⟨w, h, d2⟩ ⟨k1, k2, some ws, L⟩ =
        Except.ok r ∧ r.ssim_map.length = (validDim w ws * validDim h ws).toNat) ∧
      (ws < w → ws < h →
        (validDim w ws * validDim h ws).toNat = (w - 2 * (ws / 2)) * (h - 2 * (ws / 2))) := by
  refine ⟨⟨_, calculateSSIM_ok kernel w h d1 d2 ⟨k1, k2, some ws, L⟩ hnn, ?_⟩,
    ⟨_, calculateSSIMFast_ok w h d1 d2 ⟨k1, k2, some ws, L⟩ hnn, ?_⟩, ?_⟩
  · exact refMap_length kernel w h d1 d2 ⟨k1, k2, some ws, L⟩
  · exact fastMap_length w h d1 d2 ⟨k1, k2, some ws, L⟩
  · intro hw hh
    have hvw : validDim w ws = ((w - 2 * (ws / 2) : Nat) : Int) := by
      unfold validDim; omega
    have hvh : validDim h ws = ((h - 2 * (ws / 2) : Nat) : Int) := by
      unfold validDim; omega
    rw [hvw, hvh, ← Nat.cast_mul, Int.toNat_natCast]

/-- Counterexample for C4 as frozen: two 3×3 images with windowSize 11.  The
frozen formula `max(0, 3-10) * max(0, 3-10)` claims length 0, but both
engines allocate `(-7)*(-7) = 49` entries and return a length-49 map. -/
theorem c4_counterexample :
    Except.map (fun r => r.ssim_map.length)
        (calculateSSIM (fun _ => 1) ⟨3, 3, fun _ => 0⟩ ⟨3, 3, fun _ => 0⟩
          ⟨none, none, some 11, none⟩) = Except.ok 49 ∧
      Except.map (fun r => r.ssim_map.length)
        (calculateSSIMFast ⟨3, 3, fun _ => 0⟩ ⟨3, 3, fun _ => 0⟩
          ⟨none, none, some 11, none⟩) = Except.ok 49 ∧
      (max 0 (validDim 3 11) * max 0 (validDim 3 11)).toNat = 0 := by
  refine ⟨?_, ?_, by decide⟩
  · rw [calculateSSIM_ok (fun _ => 1) 3 3 (fun _ => 0) (fun _ => 0)
      ⟨none, none, some 11, none⟩ (by decide)]
    simp only [Except.map, Except.ok.injEq]
    decide
  · rw [calculateSSIMFast_ok 3 3 (fun _ => 0) (fun _ => 0)
      ⟨none, none, some 11, none⟩ (by decide)]
    simp only [Except.map, Except.ok.injEq]
    decide

/-- Witness for C4 at a 32×32 pair with windowSize 11
(`ssim_map.length = 22*22 = 484`). -/
theorem c4_map_length_witness :
    (∃ r, calculateSSIM (fun _ => 1) ⟨32, 32, fun _ => 128⟩ ⟨32, 32, fun _ => 128⟩
        ⟨none, none, some 11, none⟩ = Except.ok r ∧
        r.ssim_map.length = (validDim 32 11 * validDim 32 11).toNat) ∧
      (∃ r, calculateSSIMFast ⟨32, 32, fun _ => 128⟩ ⟨32, 32, fun _ => 128⟩
        ⟨none, none, some 11, none⟩ = Except.ok r ∧
        r.ssim_map.length = (validDim 32 11 * validDim 32 11).toNat) ∧
      (11 < 32 → 11 < 32 →
        (validDim 32 11 * validDim 32 11).toNat = (32 - 2 * (11 / 2)) * (32 - 2 * (11 / 2))) :=
  c4_map_length (fun _ => 1) 32 32 11 (fun _ => 128) (fun _ => 128)
    none none none (by decide)

/-! ## Claim C5: images smaller than the window -/

/-- Claim C5 (amended): when both dimensions are smaller than the window
size, both engines succeed and the map consists of
`((width-2·halfSize)·(height-2·halfSize)).toNat` zero entries — it is empty
exactly when that product is zero, and when both factors are strictly
negative the map is a non-empty run of zeros.  The mean over a non-empty
all-zero map is 0 (over the empty map JavaScript computes `0/0 = NaN`, which
the exact model renders as `0`). -/
theorem c5_small_images (kernel : Nat → ℚ) (w h ws : Nat) (d1 d2 : Nat → ℚ)
    (k1 k2 L : Option ℚ) (hw : w < ws) (hh : h < ws) :
    (∃ r, calculateSSIM kernel ⟨w, h, d1⟩ ⟨w, h, d2⟩ ⟨k1, k2, some ws, L⟩ =
        Except.ok r ∧
        r.ssim_map = List.replicate (validDim w ws * validDim h ws).toNat 0 ∧
        (r.ssim_map = [] ↔ validDim w ws * validDim h ws = 0) ∧
        (r.ssim_map ≠ [] → r.mssim = 0)) ∧
      (∃ r, calculateSSIMFast ⟨w, h, d1⟩ ⟨w, h, d2⟩ ⟨k1, k2, some ws, L⟩ =
        Except.ok r ∧
        r.ssim_map = List.replicate (validDim w ws * validDim h ws).toNat 0 ∧
        (r.ssim_map = [] ↔ validDim w ws * validDim h ws = 0) ∧
        (r.ssim_map ≠ [] → r.mssim = 0)) := by
  have hvw : validDim w ws ≤ 0 := by unfold validDim; omega
  have hvh : validDim h ws ≤ 0 := by unfold validDim; omega
  have hnn : 0 ≤ validDim w ws * validDim h ws := by
    have := mul_nonneg (neg_nonneg.mpr hvw) (neg_nonneg.mpr hvh)
    rwa [neg_mul_neg] at this
  have hvw0 : (validDim w ws).toNat = 0 := Int.toNat_of_nonpos hvw
  have hrefmap : refMap kernel w h d1 d2 ⟨k1, k2, some ws, L⟩ =
      List.replicate (validDim w ws * validDim h ws).toNat 0 := by
    unfold refMap
    dsimp only [Option.getD_some]
    rw [hvw0]
    simp only [List.range_zero, List.map_nil, grid_empty, List.nil_append,
      Nat.zero_mul, Nat.sub_zero]
  have hfastmap : fastMap w h d1 d2 ⟨k1, k2, some ws, L⟩ =
      List.replicate (validDim w ws * validDim h ws).toNat 0 := by
    unfold fastMap
    dsimp only [Option.getD_some]
    rw [hvw0]
    simp only [List.range_zero, List.map_nil, grid_empty, List.nil_append,
      Nat.zero_mul, Nat.sub_zero]
  have hiff : List.replicate (validDim w ws * validDim h ws).toNat (0 : ℚ) = [] ↔
      validDim w ws * validDim h ws = 0 := by
    rw [List.replicate_eq_nil_iff, Int.toNat_eq_zero]
    exact ⟨fun hle => le_antisymm hle hnn, fun he => he.le⟩
  refine ⟨⟨_, calculateSSIM_ok kernel w h d1 d2 ⟨k1, k2, some ws, L⟩ hnn,
      by rw [hrefmap], by rw [hrefmap]; exact hiff, ?_⟩,
    ⟨_, calculateSSIMFast_ok w h d1 d2 ⟨k1, k2, some ws, L⟩ hnn,
      by rw [hfastmap], by rw [hfastmap]; exact hiff, ?_⟩⟩
  · intro _
    show (refMap kernel w h d1 d2 ⟨k1, k2, some ws, L⟩).sum / _ = 0
    rw [hrefmap]
    simp
  · intro _
    show (fastMap w h d1 d2 ⟨k1, k2, some ws, L⟩).sum / _ = 0
    rw [hfastmap]
    simp

/-- Counterexample for C5 as frozen: two 3×3 images with windowSize 11 (both
dimensions smaller than the window).  The claim says the map is empty and the
mean undefined/NaN; both engines actually return 49 map entries and
`mssim = 0`. -/
theorem c5_counterexample :
    Except.map (fun r => (r.ssim_map.length, r.mssim))
        (calculateSSIM (fun _ => 1) ⟨3, 3, fun _ => 0⟩ ⟨3, 3, fun _ => 0⟩
          ⟨none, none, some 11, none⟩) = Except.ok (49, 0) ∧
      Except.map (fun r => (r.ssim_map.length, r.mssim))
        (calculateSSIMFast ⟨3, 3, fun _ => 0⟩ ⟨3, 3, fun _ => 0⟩
          ⟨none, none, some 11, none⟩) = Except.ok (49, 0) ∧
      (49 : Nat) ≠ 0 := by
  refine ⟨?_, ?_, by decide⟩
  · rw [calculateSSIM_ok (fun _ => 1) 3 3 (fun _ => 0) (fun _ => 0)
      ⟨none, none, some 11, none⟩ (by decide)]
    simp only [Except.map, Except.ok.injEq, Prod.mk.injEq]
    constructor
    · decide
    · rw [show refMap (fun _ => 1) 3 3 (fun _ => 0) (fun _ => 0)
          ⟨none, none, some 11, none⟩ = List.replicate 49 0 from by decide]
      simp
  · rw [calculateSSIMFast_ok 3 3 (fun _ => 0) (fun _ => 0)
      ⟨none, none, some 11, none⟩ (by decide)]
    simp only [Except.map, Except.ok.injEq, Prod.mk.injEq]
    constructor
    · decide
    · rw [show fastMap 3 3 (fun _ => 0) (fun _ => 0)
          ⟨none, none, some 11, none⟩ = List.replicate 49 0 from by decide]
      simp

/-- Witness for C5 at the concrete 3×3 pair with windowSize 11. -/
theorem c5_small_images_witness :
    (∃ r, calculateSSIM (fun _ => 1) ⟨3, 3, fun _ => 7⟩ ⟨3, 3, fun _ => 7⟩
        ⟨none, none, some 11, none⟩ = Except.ok r ∧
        r.ssim_map = List.replicate (validDim 3 11 * validDim 3 11).toNat 0 ∧
        (r.ssim_map = [] ↔ validDim 3 11 * validDim 3 11 = 0) ∧
        (r.ssim_map ≠ [] → r.mssim = 0)) ∧
      (∃ r, calculateSSIMFast ⟨3, 3, fun _ => 7⟩ ⟨3, 3, fun _ => 7⟩
        ⟨none, none, some 11, none⟩ = Except.ok r ∧
        r.ssim_map = List.replicate (validDim 3 11 * validDim 3 11).toNat 0 ∧
        (r.ssim_map = [] ↔ validDim 3 11 * validDim 3 11 = 0) ∧
        (r.ssim_map ≠ [] → r.mssim = 0)) :=
  c5_small_images (fun _ => 1) 3 3 11 (fun _ => 7) (fun _ => 7)
    none none none (by decide) (by decide)

/-! ## Claim C7: integral-image correctness -/

/-- Claim C7: the table satisfies `table[y][x] = Σ source over [0..y)×[0..x)`
(zero border included, via the recurrence), and on every in-bounds rectangle
`[x1,x2]×[y1,y2]` (inclusive, 0-indexed) `getMean` equals the exact mean of
the source samples over the rectangle; `getMeanSq` the mean of the squared
samples; `ProductIntegralImage.getMean` the mean of the elementwise
products. -/
theorem c7_integral_image (f g : Nat → ℚ) (width : Nat) (x1 y1 x2 y2 : Nat)
    (hx : x1 ≤ x2) (hy : y1 ≤ y2) :
    (∀ y x, IntegralImage.integral f width y x =
        ∑ j ∈ Finset.range y, ∑ i ∈ Finset.range x, f (j * width + i)) ∧
      IntegralImage.getMean f width (x1 : Int) (y1 : Int) (x2 : Int) (y2 : Int) =
        (∑ j ∈ Finset.Icc y1 y2, ∑ i ∈ Finset.Icc x1 x2, f (j * width + i)) /
          (((x2 - x1 + 1) * (y2 - y1 + 1) : Nat) : ℚ) ∧
      IntegralImage.getMeanSq f width (x1 : Int) (y1 : Int) (x2 : Int) (y2 : Int) =
        (∑ j ∈ Finset.Icc y1 y2, ∑ i ∈ Finset.Icc x1 x2,
            f (j * width + i) * f (j * width + i)) /
          (((x2 - x1 + 1) * (y2 - y1 + 1) : Nat) : ℚ) ∧
      ProductIntegralImage.getMean f g width (x1 : Int) (y1 : Int) (x2 : Int) (y2 : Int) =
        (∑ j ∈ Finset.Icc y1 y2, ∑ i ∈ Finset.Icc x1 x2,
            f (j * width + i) * g (j * width + i)) /
          (((x2 - x1 + 1) * (y2 - y1 + 1) : Nat) : ℚ) :=
  ⟨integral_eq_sum f width, getMean_eq f width x1 y1 x2 y2 hx hy,
    getMean_eq (fun i => f i * f i) width x1 y1 x2 y2 hx hy,
    getMean_eq (fun i => f i * g i) width x1 y1 x2 y2 hx hy⟩

/-- Witness for C7: concrete sources on a 3-wide grid, rectangle
`[0,1]×[1,2]`. -/
theorem c7_integral_image_witness :
    (∀ y x, IntegralImage.integral (fun i => (i : ℚ)) 3 y x =
        ∑ j ∈ Finset.range y, ∑ i ∈ Finset.range x, ((j * 3 + i : Nat) : ℚ)) ∧
      IntegralImage.getMean (fun i => (i : ℚ)) 3 ((0 : Nat) : Int) ((1 : Nat) : Int)
          ((1 : Nat) : Int) ((2 : Nat) : Int) =
        (∑ j ∈ Finset.Icc 1 2, ∑ i ∈ Finset.Icc 0 1, ((j * 3 + i : Nat) : ℚ)) /
          (((1 - 0 + 1) * (2 - 1 + 1) : Nat) : ℚ) ∧
      IntegralImage.getMeanSq (fun i => (i : ℚ)) 3 ((0 : Nat) : Int) ((1 : Nat) : Int)
          ((1 : Nat) : Int) ((2 : Nat) : Int) =
        (∑ j ∈ Finset.Icc 1 2, ∑ i ∈ Finset.Icc 0 1,
            ((j * 3 + i : Nat) : ℚ) * ((j * 3 + i : Nat) : ℚ)) /
          (((1 - 0 + 1) * (2 - 1 + 1) : Nat) : ℚ) ∧
      ProductIntegralImage.getMean (fun i => (i : ℚ)) (fun i => (i : ℚ) + 1) 3
          ((0 : Nat) : Int) ((1 : Nat) : Int) ((1 : Nat) : Int) ((2 : Nat) : Int) =
        (∑ j ∈ Finset.Icc 1 2, ∑ i ∈ Finset.Icc 0 1,
            ((j * 3 + i : Nat) : ℚ) * (((j * 3 + i : Nat) : ℚ) + 1)) /
          (((1 - 0 + 1) * (2 - 1 + 1) : Nat) : ℚ) :=
  c7_integral_image (fun i => (i : ℚ)) (fun i => (i : ℚ) + 1) 3 0 1 1 2
    (by decide) (by decide)

/-! ## Claim C3: symmetry -/

theorem centralMoment_comm (d1 d2 : Nat → ℚ) (mu1 mu2 : ℚ)
    (w h x y ws : Nat) (kernel : Nat → ℚ) :
    centralMoment d1 d2 mu1 mu2 w h x y ws kernel =
      centralMoment d2 d1 mu2 mu1 w h x y ws kernel := by
  unfold centralMoment
  dsimp only
  refine congrArg (fun t => t / _) ?_
  exact Finset.sum_congr rfl fun py _ => Finset.sum_congr rfl fun px _ => by ring

theorem calculateLocalSSIM_comm (d1 d2 : Nat → ℚ) (w h x y ws : Nat)
    (kernel : Nat → ℚ) (C1 C2 : ℚ) :
    calculateLocalSSIM d1 d2 w h x y ws kernel C1 C2 =
      calculateLocalSSIM d2 d1 w h x y ws kernel C1 C2 := by
  unfold calculateLocalSSIM
  dsimp only
  rw [centralMoment_comm d1 d2]
  ring

theorem productMean_comm (d1 d2 : Nat → ℚ) (w : Nat) (x1 y1 x2 y2 : Int) :
    ProductIntegralImage.getMean d1 d2 w x1 y1 x2 y2 =
      ProductIntegralImage.getMean d2 d1 w x1 y1 x2 y2 := by
  unfold ProductIntegralImage.getMean
  exact congrArg (fun f => IntegralImage.getMean f w x1 y1 x2 y2)
    (funext fun i => mul_comm (d1 i) (d2 i))

theorem fastLocalSSIM_comm (d1 d2 : Nat → ℚ) (w h ws : Nat) (C1 C2 : ℚ)
    (x y : Int) :
    fastLocalSSIM d1 d2 w h ws C1 C2 x y = fastLocalSSIM d2 d1 w h ws C1 C2 x y := by
  unfold fastLocalSSIM
  dsimp only
  rw [productMean_comm d1 d2]
  ring

theorem refMap_comm (kernel : Nat → ℚ) (w h : Nat) (da db : Nat → ℚ)
    (o : SSIMOptions) :
    refMap kernel w h da db o = refMap kernel w h db da o := by
  unfold refMap
  dsimp only
  refine congrArg₂ (· ++ ·) ?_ rfl
  refine congrArg _ (funext fun ry => ?_)
  exact congrArg (fun F => List.map F (List.range _))
    (funext fun rx => calculateLocalSSIM_comm da db _ _ _ _ _ kernel _ _)

theorem fastMap_comm (w h : Nat) (da db : Nat → ℚ) (o : SSIMOptions) :
    fastMap w h da db o = fastMap w h db da o := by
  unfold fastMap
  dsimp only
  refine congrArg₂ (· ++ ·) ?_ rfl
  refine congrArg _ (funext fun ry => ?_)
  exact congrArg (fun F => List.map F (List.range _))
    (funext fun rx => fastLocalSSIM_comm da db _ _ _ _ _ _ _)

/-- Claim C3: for every pair of equal-dimension images and any options, both
engines are symmetric: the scalar result on `(a, b)` equals the scalar
result on `(b, a)` (exactly, in exact arithmetic — the mirrored computation
performs the same operations with the factors of each product swapped). -/
theorem c3_symmetry (kernel : Nat → ℚ) (w h : Nat) (da db : Nat → ℚ)
    (o : SSIMOptions) :
    ssim kernel ⟨w, h, da⟩ ⟨w, h, db⟩ o = ssim kernel ⟨w, h, db⟩ ⟨w, h, da⟩ o ∧
      ssimFast ⟨w, h, da⟩ ⟨w, h, db⟩ o = ssimFast ⟨w, h, db⟩ ⟨w, h, da⟩ o := by
  constructor
  · unfold ssim
    rcases lt_or_le (validDim w (o.windowSize.getD 11) * validDim h (o.windowSize.getD 11)) 0
      with hlt | hge
    · rw [calculateSSIM_err kernel w h da db o hlt, calculateSSIM_err kernel w h db da o hlt]
    · rw [calculateSSIM_ok kernel w h da db o hge, calculateSSIM_ok kernel w h db da o hge,
        refMap_comm]
  · unfold ssimFast
    rcases lt_or_le (validDim w (o.windowSize.getD 8) * validDim h (o.windowSize.getD 8)) 0
      with hlt | hge
    · rw [calculateSSIMFast_err w h da db o hlt, calculateSSIMFast_err w h db da o hlt]
    · rw [calculateSSIMFast_ok w h da db o hge, calculateSSIMFast_ok w h db da o hge,
        fastMap_comm]

/-! ## Claim C1: identical images score 1 -/

theorem centralMoment_self_nonneg (d : Nat → ℚ) (mu : ℚ) (w h x y ws : Nat)
    (kernel : Nat → ℚ) (hker : ∀ i, 0 ≤ kernel i) :
    0 ≤ centralMoment d d mu mu w h x y ws kernel := by
  unfold centralMoment
  dsimp only
  apply div_nonneg
  · refine Finset.sum_nonneg fun py _ => Finset.sum_nonneg fun px _ => ?_
    rw [mul_assoc]
    exact mul_nonneg (hker _) (mul_self_nonneg _)
  · exact Finset.sum_nonneg fun py _ => Finset.sum_nonneg fun px _ => hker _

/-- On identical inputs the per-pixel reference SSIM is exactly 1 (for any
non-negative kernel and positive stabilisation constants): the numerator and
denominator of the SSIM formula coincide and the denominator is positive. -/
theorem calculateLocalSSIM_self (d : Nat → ℚ) (w h x y ws : Nat)
    (kernel : Nat → ℚ) (hker : ∀ i, 0 ≤ kernel i) (C1 C2 : ℚ)
    (hC1 : 0 < C1) (hC2 : 0 < C2) :
    calculateLocalSSIM d d w h x y ws kernel C1 C2 = 1 := by
  unfold calculateLocalSSIM
  dsimp only
  set mu := applyGaussianWindow d w h x y ws kernel with hmu
  set s := centralMoment d d mu mu w h x y ws kernel with hs
  have hσ : 0 ≤ s := centralMoment_self_nonneg d mu w h x y ws kernel hker
  have h1 : 0 < mu * mu + mu * mu + C1 := by nlinarith [mul_self_nonneg mu]
  have h2 : 0 < s + s + C2 := by linarith
  rw [div_eq_one_iff_eq (ne_of_gt (mul_pos h1 h2))]
  ring

/-- Cauchy–Schwarz for the box window: the mean of squares dominates the
square of the mean, so the derived variance `E[x²] - μ²` is non-negative. -/
theorem box_variance_nonneg (d : Nat → ℚ) (w : Nat) (x1 y1 x2 y2 : Nat)
    (hx : x1 ≤ x2) (hy : y1 ≤ y2) :
    0 ≤ IntegralImage.getMeanSq d w (x1 : Int) (y1 : Int) (x2 : Int) (y2 : Int) -
      IntegralImage.getMean d w (x1 : Int) (y1 : Int) (x2 : Int) (y2 : Int) *
        IntegralImage.getMean d w (x1 : Int) (y1 : Int) (x2 : Int) (y2 : Int) := by
  have hQ := getMean_eq (fun i => d i * d i) w x1 y1 x2 y2 hx hy
  have hS := getMean_eq d w x1 y1 x2 y2 hx hy
  unfold IntegralImage.getMeanSq
  rw [hQ, hS]
  set S := ∑ j ∈ Finset.Icc y1 y2, ∑ i ∈ Finset.Icc x1 x2, d (j * w + i) with hSdef
  set Q := ∑ j ∈ Finset.Icc y1 y2, ∑ i ∈ Finset.Icc x1 x2, d (j * w + i) * d (j * w + i)
    with hQdef
  set n : Nat := (x2 - x1 + 1) * (y2 - y1 + 1) with hn
  have hnpos : 0 < n := Nat.mul_pos (by omega) (by omega)
  have hcs : S ^ 2 ≤ Q * n := by
    have h := Finset.sum_mul_sq_le_sq_mul_sq (Finset.Icc y1 y2 ×ˢ Finset.Icc x1 x2)
      (fun p => d (p.1 * w + p.2)) (fun _ => (1 : ℚ))
    simp only [mul_one, one_pow, Finset.sum_const, nsmul_eq_mul] at h
    rw [Finset.sum_product] at h
    have hsq : ∑ p ∈ Finset.Icc y1 y2 ×ˢ Finset.Icc x1 x2, d (p.1 * w + p.2) ^ 2 = Q := by
      rw [hQdef, Finset.sum_product]
      exact Finset.sum_congr rfl fun j _ => Finset.sum_congr rfl fun i _ => sq (d (j * w + i)) ▸ by ring
    have hcard : ((Finset.Icc y1 y2 ×ˢ Finset.Icc x1 x2).card : ℚ) = (n : ℚ) := by
      rw [Finset.card_product, Nat.card_Icc, Nat.card_Icc, hn]
      congr 1
      have e1 : y2 + 1 - y1 = y2 - y1 + 1 := by omega
      have e2 : x2 + 1 - x1 = x2 - x1 + 1 := by omega
      rw [e1, e2, Nat.mul_comm]
    rw [hsq, hcard] at h
    exact h
  have hn' : (0 : ℚ) < (n : ℚ) := by exact_mod_cast hnpos
  rw [sub_nonneg, div_mul_div_comm, div_le_div_iff₀ (by positivity) hn']
  nlinarith [hcs, hn']

/-- On identical inputs the per-pixel fast SSIM is exactly 1 for every
interior scan pixel (unclamped box window): the numerator equals the
denominator, which is positive because the box variance is non-negative. -/
theorem fastLocalSSIM_self (d : Nat → ℚ) (w h ws : Nat) (C1 C2 : ℚ)
    (hC1 : 0 < C1) (hC2 : 0 < C2) (x y : Int) (hhalf : 1 ≤ ws / 2)
    (hxl : ((ws / 2 : Nat) : Int) ≤ x) (hxu : x + ((ws / 2 : Nat) : Int) ≤ (w : Int))
    (hyl : ((ws / 2 : Nat) : Int) ≤ y) (hyu : y + ((ws / 2 : Nat) : Int) ≤ (h : Int)) :
    fastLocalSSIM d d w h ws C1 C2 x y = 1 := by
  unfold fastLocalSSIM
  dsimp only
  rw [max_eq_right (by omega), max_eq_right (by omega),
    min_eq_right (by omega), min_eq_right (by omega)]
  obtain ⟨a, ha⟩ : ∃ a : Nat, x - ((ws / 2 : Nat) : Int) = (a : Int) :=
    ⟨(x - ((ws / 2 : Nat) : Int)).toNat, by omega⟩
  obtain ⟨c, hc⟩ : ∃ c : Nat, y - ((ws / 2 : Nat) : Int) = (c : Int) :=
    ⟨(y - ((ws / 2 : Nat) : Int)).toNat, by omega⟩
  have hb : x + ((ws / 2 : Nat) : Int) - 1 = ((a + (2 * (ws / 2) - 1) : Nat) : Int) := by omega
  have hd : y + ((ws / 2 : Nat) : Int) - 1 = ((c + (2 * (ws / 2) - 1) : Nat) : Int) := by omega
  rw [ha, hc, hb, hd]
  have hprod : ProductIntegralImage.getMean d d w (a : Int) (c : Int)
      ((a + (2 * (ws / 2) - 1) : Nat) : Int) ((c + (2 * (ws / 2) - 1) : Nat) : Int) =
      IntegralImage.getMeanSq d w (a : Int) (c : Int)
        ((a + (2 * (ws / 2) - 1) : Nat) : Int) ((c + (2 * (ws / 2) - 1) : Nat) : Int) := rfl
  rw [hprod]
  set mu := IntegralImage.getMean d w (a : Int) (c : Int)
    ((a + (2 * (ws / 2) - 1) : Nat) : Int) ((c + (2 * (ws / 2) - 1) : Nat) : Int) with hmu
  set Q := IntegralImage.getMeanSq d w (a : Int) (c : Int)
    ((a + (2 * (ws / 2) - 1) : Nat) : Int) ((c + (2 * (ws / 2) - 1) : Nat) : Int) with hQ
  have hσ : 0 ≤ Q - mu * mu :=
    box_variance_nonneg d w a c (a + (2 * (ws / 2) - 1)) (c + (2 * (ws / 2) - 1))
      (by omega) (by omega)
  have h1 : 0 < mu * mu + mu * mu + C1 := by nlinarith [mul_self_nonneg mu]
  have h2 : 0 < (Q - mu * mu) + (Q - mu * mu) + C2 := by linarith
  rw [div_eq_one_iff_eq (ne_of_gt (mul_pos h1 h2))]
  ring

theorem sum_eq_length_of_all_one (l : List ℚ) (h : ∀ a ∈ l, a = 1) :
    l.sum = (l.length : ℚ) := by
  induction l with
  | nil => simp
  | cons a t ih =>
    have ha : a = 1 := h a (List.mem_cons_self a t)
    have ht := ih fun b hb => h b (List.mem_cons_of_mem a hb)
    rw [List.sum_cons, List.length_cons, ha, ht]
    push_cast
    ring

/-- Claim C1 (amended): for identical images under an odd window size
`3 ≤ windowSize ≤ min(width, height)`, non-degenerate stabilisation
constants (`k1·L ≠ 0`, `k2·L ≠ 0`) and a non-negative weighting kernel, the
reference engine returns `mssim = 1` exactly and the fast engine's `mssim`
is within `1/1000` of 1 (it is also exactly 1 in exact arithmetic).  The
`kernel` argument stands for the Gaussian kernel the source fetches from the
cache, whose entries are non-negative. -/
theorem c1_identical_images (kernel : Nat → ℚ) (w h ws : Nat) (d : Nat → ℚ)
    (k1 k2 L : Option ℚ) (hodd : ws % 2 = 1) (hws : 3 ≤ ws) (hw : ws ≤ w)
    (hh : ws ≤ h) (hker : ∀ i, 0 ≤ kernel i)
    (hk1 : k1.getD (1 / 100) * L.getD 255 ≠ 0)
    (hk2 : k2.getD (3 / 100) * L.getD 255 ≠ 0) :
    (∃ r, calculateSSIM kernel ⟨w, h, d⟩ ⟨w, h, d⟩ ⟨k1, k2, some ws, L⟩ =
        Except.ok r ∧ r.mssim = 1) ∧
      (∃ r, calculateSSIMFast ⟨w, h, d⟩ ⟨w, h, d⟩ ⟨k1, k2, some ws, L⟩ =
        Except.ok r ∧ |r.mssim - 1| < 1 / 1000) := by
  have hvw : 0 < validDim w ws := by unfold validDim; omega
  have hvh : 0 < validDim h ws := by unfold validDim; omega
  have hnn : 0 ≤ validDim w ws * validDim h ws := mul_nonneg hvw.le hvh.le
  have hpad : (validDim w ws * validDim h ws).toNat -
      (validDim w ws).toNat * (validDim h ws).toNat = 0 := by
    rw [int_toNat_mul _ _ hvw.le hvh.le]
    omega
  have hlen_ne : (((validDim w ws * validDim h ws).toNat : Nat) : ℚ) ≠ 0 := by
    have hP : 0 < validDim w ws * validDim h ws := mul_pos hvw hvh
    exact Nat.cast_ne_zero.mpr (by omega)
  have honeR : ∀ a ∈ refMap kernel w h d d ⟨k1, k2, some ws, L⟩, a = 1 := by
    intro a ha
    unfold refMap at ha
    dsimp only [Option.getD_some] at ha
    rw [hpad] at ha
    simp only [List.replicate_zero, List.append_nil] at ha
    simp only [List.mem_flatMap, List.mem_map, List.mem_range] at ha
    obtain ⟨ry, hry, rx, hrx, rfl⟩ := ha
    exact calculateLocalSSIM_self d w h _ _ ws kernel hker _ _
      (pow_two_pos_of_ne_zero hk1) (pow_two_pos_of_ne_zero hk2)
  have honeF : ∀ a ∈ fastMap w h d d ⟨k1, k2, some ws, L⟩, a = 1 := by
    intro a ha
    unfold fastMap at ha
    dsimp only [Option.getD_some] at ha
    rw [hpad] at ha
    simp only [List.replicate_zero, List.append_nil] at ha
    simp only [List.mem_flatMap, List.mem_map, List.mem_range] at ha
    obtain ⟨ry, hry, rx, hrx, rfl⟩ := ha
    unfold validDim at hrx hry
    refine fastLocalSSIM_self d w h ws _ _ (mul_self_pos.mpr hk1) (mul_self_pos.mpr hk2)
      _ _ (by omega) (by omega) (by omega) (by omega) (by omega)
  refine ⟨⟨_, calculateSSIM_ok kernel w h d d ⟨k1, k2, some ws, L⟩ hnn, ?_⟩,
    ⟨_, calculateSSIMFast_ok w h d d ⟨k1, k2, some ws, L⟩ hnn, ?_⟩⟩
  · show (refMap kernel w h d d ⟨k1, k2, some ws, L⟩).sum /
      ((refMap kernel w h d d ⟨k1, k2, some ws, L⟩).length : ℚ) = 1
    rw [sum_eq_length_of_all_one _ honeR]
    refine div_self ?_
    rw [refMap_length]
    exact hlen_ne
  · show |(fastMap w h d d ⟨k1, k2, some ws, L⟩).sum /
      ((fastMap w h d d ⟨k1, k2, some ws, L⟩).length : ℚ) - 1| < 1 / 1000
    have hm : (fastMap w h d d ⟨k1, k2, some ws, L⟩).sum /
        ((fastMap w h d d ⟨k1, k2, some ws, L⟩).length : ℚ) = 1 := by
      rw [sum_eq_length_of_all_one _ honeF]
      refine div_self ?_
      rw [fastMap_length]
      exact hlen_ne
    rw [hm]
    norm_num

/-- Counterexample for C1 as frozen: identical 8×8 constant images with
windowSize 8 have width and height "at least the window size", but the valid
region is empty (`8 - 2·4 = 0`), so both engines compute the mean of an
empty map — `0/0`, NaN in JavaScript and `0` in the exact model — which is
not 1 (and not within `1/1000` of 1). -/
theorem c1_counterexample :
    Except.map SSIMResult.mssim
        (calculateSSIM (fun _ => 1) ⟨8, 8, fun _ => 128⟩ ⟨8, 8, fun _ => 128⟩
          ⟨none, none, some 8, none⟩) = Except.ok 0 ∧
      (0 : ℚ) ≠ 1 ∧
      Except.map SSIMResult.mssim
        (calculateSSIMFast ⟨8, 8, fun _ => 128⟩ ⟨8, 8, fun _ => 128⟩
          ⟨none, none, some 8, none⟩) = Except.ok 0 ∧
      ¬(|(0 : ℚ) - 1| < 1 / 1000) := by
  refine ⟨?_, by norm_num, ?_, by norm_num⟩
  · rw [calculateSSIM_ok (fun _ => 1) 8 8 (fun _ => 128) (fun _ => 128)
      ⟨none, none, some 8, none⟩ (by decide)]
    simp only [Except.map, Except.ok.injEq]
    rw [show refMap (fun _ => 1) 8 8 (fun _ => 128) (fun _ => 128)
        ⟨none, none, some 8, none⟩ = ([] : List ℚ) from by decide]
    simp
  · rw [calculateSSIMFast_ok 8 8 (fun _ => 128) (fun _ => 128)
      ⟨none, none, some 8, none⟩ (by decide)]
    simp only [Except.map, Except.ok.injEq]
    rw [show fastMap 8 8 (fun _ => 128) (fun _ => 128)
        ⟨none, none, some 8, none⟩ = ([] : List ℚ) from by decide]
    simp

/-- Witness for C1 at the concrete instance `w = h = ws = 3`, constant zero
image, constant kernel 1 (non-negative like the Gaussian kernel). -/
theorem c1_identical_images_witness :
    (∃ r, calculateSSIM (fun _ => 1) ⟨3, 3, fun _ => 0⟩ ⟨3, 3, fun _ => 0⟩
        ⟨none, none, some 3, none⟩ = Except.ok r ∧ r.mssim = 1) ∧
      (∃ r, calculateSSIMFast ⟨3, 3, fun _ => 0⟩ ⟨3, 3, fun _ => 0⟩
        ⟨none, none, some 3, none⟩ = Except.ok r ∧ |r.mssim - 1| < 1 / 1000) :=
  c1_identical_images (fun _ => 1) 3 3 3 (fun _ => 0) none none none
    (by decide) (by decide) (by decide) (by decide) (fun _ => zero_le_one)
    (by norm_num) (by norm_num)

/-! ## Claim C9: the fast engine's per-pixel computation -/

/-- Claim C9: for every interior scan pixel `(x, y) = (rx + halfSize,
ry + halfSize)` of the valid region, the fast engine's map entry at row-major
index `ry·validWidth + rx` is exactly the SSIM formula evaluated on the
clamped box window `x1 = max(0, x-halfSize)`, `x2 = min(width-1,
x+halfSize-1)` (and likewise for `y`), with `σ1² = E[x²]-μ1²`,
`σ2² = E[y²]-μ2²`, `σ12 = E[xy]-μ1·μ2` taken from the three integral-image
mean queries. -/
theorem c9_fast_pixel (w h : Nat) (d1 d2 : Nat → ℚ) (o : SSIMOptions) (rx ry : Nat)
    (hrx : rx < (validDim w (o.windowSize.getD 8)).toNat)
    (hry : ry < (validDim h (o.windowSize.getD 8)).toNat) :
    ∃ r, calculateSSIMFast ⟨w, h, d1⟩ ⟨w, h, d2⟩ o = Except.ok r ∧
      r.ssim_map[ry * (validDim w (o.windowSize.getD 8)).toNat + rx]? =
        some (
          let windowSize := o.windowSize.getD 8
          let halfSize := windowSize / 2
          let C1 := (o.k1.getD (1 / 100) * o.L.getD 255) * (o.k1.getD (1 / 100) * o.L.getD 255)
          let C2 := (o.k2.getD (3 / 100) * o.L.getD 255) * (o.k2.getD (3 / 100) * o.L.getD 255)
          let x : Int := (rx : Int) + halfSize
          let y : Int := (ry : Int) + halfSize
          let x1 := max 0 (x - halfSize)
          let x2 := min ((w : Int) - 1) (x + halfSize - 1)
          let y1 := max 0 (y - halfSize)
          let y2 := min ((h : Int) - 1) (y + halfSize - 1)
          let mu1 := IntegralImage.getMean d1 w x1 y1 x2 y2
          let mu2 := IntegralImage.getMean d2 w x1 y1 x2 y2
          let sigma1Sq := IntegralImage.getMeanSq d1 w x1 y1 x2 y2 - mu1 ^ 2
          let sigma2Sq := IntegralImage.getMeanSq d2 w x1 y1 x2 y2 - mu2 ^ 2
          let sigma12 := ProductIntegralImage.getMean d1 d2 w x1 y1 x2 y2 - mu1 * mu2
          ((2 * mu1 * mu2 + C1) * (2 * sigma12 + C2)) /
            ((mu1 ^ 2 + mu2 ^ 2 + C1) * (sigma1Sq + sigma2Sq + C2))) := by
  have hvw : 0 < validDim w (o.windowSize.getD 8) := by omega
  have hvh : 0 < validDim h (o.windowSize.getD 8) := by omega
  have hnn : 0 ≤ validDim w (o.windowSize.getD 8) * validDim h (o.windowSize.getD 8) :=
    mul_nonneg hvw.le hvh.le
  refine ⟨_, calculateSSIMFast_ok w h d1 d2 o hnn, ?_⟩
  show (fastMap w h d1 d2 o)[ry * (validDim w (o.windowSize.getD 8)).toNat + rx]? = _
  unfold fastMap
  dsimp only
  have hidx : ry * (validDim w (o.windowSize.getD 8)).toNat + rx <
      (validDim h (o.windowSize.getD 8)).toNat * (validDim w (o.windowSize.getD 8)).toNat := by
    calc ry * (validDim w (o.windowSize.getD 8)).toNat + rx
        < ry * (validDim w (o.windowSize.getD 8)).toNat +
          (validDim w (o.windowSize.getD 8)).toNat := by omega
      _ = (ry + 1) * (validDim w (o.windowSize.getD 8)).toNat := by ring
      _ ≤ (validDim h (o.windowSize.getD 8)).toNat *
          (validDim w (o.windowSize.getD 8)).toNat :=
        Nat.mul_le_mul_right _ (by omega)
  rw [List.getElem?_append_left (by rw [grid_length]; exact hidx)]
  rw [grid_getElem _ ry _ rx _ hry hrx]
  refine congrArg some ?_
  unfold fastLocalSSIM
  dsimp only
  ring

/-- Witness for C9 at a 9×9 pair with the default fast window size 8
(valid region 1×1, pixel `(rx, ry) = (0, 0)`). -/
theorem c9_fast_pixel_witness :
    ∃ r, calculateSSIMFast ⟨9, 9, fun i => (i : ℚ)⟩ ⟨9, 9, fun i => (2 * i : ℚ)⟩
        ⟨none, none, none, none⟩ = Except.ok r ∧
      r.ssim_map[0 * (validDim 9 ((none : Option Nat).getD 8)).toNat + 0]? =
        some (
          let windowSize := (none : Option Nat).getD 8
          let halfSize := windowSize / 2
          let C1 := ((none : Option ℚ).getD (1 / 100) * (none : Option ℚ).getD 255) *
            ((none : Option ℚ).getD (1 / 100) * (none : Option ℚ).getD 255)
          let C2 := ((none : Option ℚ).getD (3 / 100) * (none : Option ℚ).getD 255) *
            ((none : Option ℚ).getD (3 / 100) * (none : Option ℚ).getD 255)
          let x : Int := ((0 : Nat) : Int) + halfSize
          let y : Int := ((0 : Nat) : Int) + halfSize
          let x1 := max 0 (x - halfSize)
          let x2 := min ((9 : Int) - 1) (x + halfSize - 1)
          let y1 := max 0 (y - halfSize)
          let y2 := min ((9 : Int) - 1) (y + halfSize - 1)
          let mu1 := IntegralImage.getMean (fun i => (i : ℚ)) 9 x1 y1 x2 y2
          let mu2 := IntegralImage.getMean (fun i => (2 * i : ℚ)) 9 x1 y1 x2 y2
          let sigma1Sq := IntegralImage.getMeanSq (fun i => (i : ℚ)) 9 x1 y1 x2 y2 - mu1 ^ 2
          let sigma2Sq := IntegralImage.getMeanSq (fun i => (2 * i : ℚ)) 9 x1 y1 x2 y2 - mu2 ^ 2
          let sigma12 := ProductIntegralImage.getMean (fun i => (i : ℚ))
            (fun i => (2 * i : ℚ)) 9 x1 y1 x2 y2 - mu1 * mu2
          ((2 * mu1 * mu2 + C1) * (2 * sigma12 + C2)) /
            ((mu1 ^ 2 + mu2 ^ 2 + C1) * (sigma1Sq + sigma2Sq + C2))) :=
  c9_fast_pixel 9 9 (fun i => (i : ℚ)) (fun i => (2 * i : ℚ)) ⟨none, none, none, none⟩
    0 0 (by decide) (by decide)

/-! ## Claim C8: the Gaussian kernel and its cache -/

theorem getOrCreateKernel_some (cache : KernelCache) (ws : Nat) (sigma : ℚ)
    (k : Nat → ℝ) (hl : cacheLookup cache (ws, sigma) = some k) :
    getOrCreateKernel cache ws sigma = (k, cache) := by
  unfold getOrCreateKernel
  rw [hl]

theorem getOrCreateKernel_none (cache : KernelCache) (ws : Nat) (sigma : ℚ)
    (hl : cacheLookup cache (ws, sigma) = none) :
    getOrCreateKernel cache ws sigma =
      (createGaussianKernel ws sigma,
        ((ws, sigma), createGaussianKernel ws sigma) :: cache) := by
  unfold getOrCreateKernel
  rw [hl]

theorem cacheLookup_cons_self (ws : Nat) (sigma : ℚ) (k : Nat → ℝ)
    (rest : KernelCache) :
    cacheLookup (((ws, sigma), k) :: rest) (ws, sigma) = some k := by
  unfold cacheLookup
  rw [if_pos rfl]

theorem gaussianSum_pos (windowSize : Nat) (sigma : ℚ) (hws : 0 < windowSize) :
    0 < gaussianSum windowSize sigma := by
  unfold gaussianSum
  refine Finset.sum_pos (fun i _ => Real.exp_pos _) ?_
  rw [Finset.nonempty_range_iff]
  exact Nat.mul_ne_zero (by omega) (by omega)

/-- Claim C8: the kernel getter returns the normalized Gaussian kernel — all
entries non-negative, entry `(x, y)` proportional (with the positive
constant `gaussianSum`) to `exp(-((x-c)²+(y-c)²)/(2σ²))` for
`c = ⌊windowSize/2⌋`, entries summing exactly to 1 in exact arithmetic — and
every subsequent call with the same `(windowSize, sigma)` key returns the
already-cached kernel, leaving the cache unchanged (first call on a missing
key constructs the Gaussian kernel and stores it). -/
theorem c8_kernel_cache (windowSize : Nat) (sigma : ℚ) (hws : 0 < windowSize)
    (_hsigma : sigma ≠ 0) :
    (∀ idx, 0 ≤ createGaussianKernel windowSize sigma idx) ∧
      0 < gaussianSum windowSize sigma ∧
      (∀ x y, x < windowSize → y < windowSize →
        createGaussianKernel windowSize sigma (y * windowSize + x) *
            gaussianSum windowSize sigma =
          Real.exp (-((((x : Nat) : ℝ) - ((windowSize / 2 : Nat) : ℝ)) ^ 2 +
              (((y : Nat) : ℝ) - ((windowSize / 2 : Nat) : ℝ)) ^ 2) /
            (2 * (sigma : ℝ) ^ 2))) ∧
      (∑ idx ∈ Finset.range (windowSize * windowSize),
          createGaussianKernel windowSize sigma idx = 1) ∧
      (∀ cache : KernelCache,
        getOrCreateKernel (getOrCreateKernel cache windowSize sigma).2 windowSize sigma =
          getOrCreateKernel cache windowSize sigma ∧
        (cacheLookup cache (windowSize, sigma) = none →
          (getOrCreateKernel cache windowSize sigma).1 =
            createGaussianKernel windowSize sigma) ∧
        (∀ k0, cacheLookup cache (windowSize, sigma) = some k0 →
          getOrCreateKernel cache windowSize sigma = (k0, cache))) := by
  have hsum : 0 < gaussianSum windowSize sigma := gaussianSum_pos windowSize sigma hws
  refine ⟨?_, hsum, ?_, ?_, ?_⟩
  · intro idx
    unfold createGaussianKernel
    split
    · exact div_nonneg (le_of_lt (Real.exp_pos _)) hsum.le
    · exact le_refl 0
  · intro x y hx hy
    have hidx : y * windowSize + x < windowSize * windowSize := by
      calc y * windowSize + x < y * windowSize + windowSize := by omega
        _ = (y + 1) * windowSize := by ring
        _ ≤ windowSize * windowSize := Nat.mul_le_mul_right _ (by omega)
    have hmod : (y * windowSize + x) % windowSize = x := by
      rw [Nat.add_comm, Nat.add_mul_mod_self_right]
      exact Nat.mod_eq_of_lt hx
    have hdiv : (y * windowSize + x) / windowSize = y := by
      rw [Nat.add_comm, Nat.add_mul_div_right _ _ hws, Nat.div_eq_of_lt hx, Nat.zero_add]
    unfold createGaussianKernel
    rw [if_pos hidx, div_mul_cancel₀ _ (ne_of_gt hsum)]
    unfold gaussianWeight
    dsimp only
    rw [hmod, hdiv]
    congr 1
    ring
  · have hterm : ∀ i ∈ Finset.range (windowSize * windowSize),
        createGaussianKernel windowSize sigma i =
          gaussianWeight windowSize sigma i / gaussianSum windowSize sigma := by
      intro i hi
      unfold createGaussianKernel
      rw [if_pos (Finset.mem_range.mp hi)]
    rw [Finset.sum_congr rfl hterm, ← Finset.sum_div]
    show gaussianSum windowSize sigma / gaussianSum windowSize sigma = 1
    exact div_self (ne_of_gt hsum)
  · intro cache
    rcases hl : cacheLookup cache (windowSize, sigma) with _ | k
    · rw [getOrCreateKernel_none cache windowSize sigma hl]
      refine ⟨?_, fun _ => rfl, fun k0 hk0 => Option.noConfusion hk0⟩
      rw [getOrCreateKernel_some _ windowSize sigma _
        (cacheLookup_cons_self windowSize sigma _ cache)]
    · rw [getOrCreateKernel_some cache windowSize sigma k hl]
      refine ⟨?_, ?_, ?_⟩
      · rw [getOrCreateKernel_some cache windowSize sigma k hl]
      · intro hnone
        exact Option.noConfusion hnone
      · intro k0 hk0
        rw [Option.some.inj hk0]

/-- Witness for C8 at `windowSize = 1`, `sigma = 3/2` (the source's fixed
default sigma). -/
theorem c8_kernel_cache_witness :
    (∀ idx, 0 ≤ createGaussianKernel 1 (3 / 2) idx) ∧
      0 < gaussianSum 1 (3 / 2) ∧
      (∀ x y, x < 1 → y < 1 →
        createGaussianKernel 1 (3 / 2) (y * 1 + x) * gaussianSum 1 (3 / 2) =
          Real.exp (-((((x : Nat) : ℝ) - ((1 / 2 : Nat) : ℝ)) ^ 2 +
              (((y : Nat) : ℝ) - ((1 / 2 : Nat) : ℝ)) ^ 2) /
            (2 * ((3 / 2 : ℚ) : ℝ) ^ 2))) ∧
      (∑ idx ∈ Finset.range (1 * 1), createGaussianKernel 1 (3 / 2) idx = 1) ∧
      (∀ cache : KernelCache,
        getOrCreateKernel (getOrCreateKernel cache 1 (3 / 2)).2 1 (3 / 2) =
          getOrCreateKernel cache 1 (3 / 2) ∧
        (cacheLookup cache (1, 3 / 2) = none →
          (getOrCreateKernel cache 1 (3 / 2)).1 = createGaussianKernel 1 (3 / 2)) ∧
        (∀ k0, cacheLookup cache (1, 3 / 2) = some k0 →
          getOrCreateKernel cache 1 (3 / 2) = (k0, cache))) :=
  c8_kernel_cache 1 (3 / 2) (by decide) (by norm_num)

end SsimTs
